import Mathlib

/-!
Shallow embedding of the erlxsl provider-boundary header (src/c_src/erlxsl.h).

Modelling conventions:

* A C pointer is an `Option` value; `none` is the NULL pointer.
* The macros that mutate the command envelope (`assign_result_buffer`,
  `write_result_buffer`, `clear_result_buffer`) are state transformers on
  `Option Command`; a null-pointer dereference performed by a macro is the
  `Outcome.ub` outcome (undefined behavior).
* A `char*` result buffer is a `CBuffer`: `cap` is the number of bytes
  obtained from the allocator and `contents` is the C-string value held in
  the region (the characters before the NUL terminator).  `strcpy` and
  `strcat` store the full string regardless of `cap` (the C macros perform
  no bounds check); the embedding records `cap` so that an overrun — a store
  that needs more than `cap` bytes, counting the NUL terminator — is
  observable through `bufOverrun`.
* The `command_data` union overlays `DriverIOVec* iov` and
  `XslTask* xsl_task`.  The macros embedded here read only the `xsl_task`
  member (`get_task`), so the embedding models that member; the `iov` view
  is never accessed by any modelled operation.  Likewise the `payload` union
  of `DriverIOVec` overlays `char* buffer` and `void* data`; every modelled
  macro accesses only the `buffer` member, so `payload` models that member.
-/

/-- DriverState enumeration (erlxsl.h), constructors in declaration order. -/
inductive DriverState where
  | Success
  | InitOk
  | LibraryNotFound
  | EntryPointNotFound
  | InitFailed
  | OutOfMemory
  | UnknownCommand
  | UnsupportedOperationError
deriving DecidableEq

/-- EngineState enumeration (erlxsl.h), constructors in declaration order. -/
inductive EngineState where
  | Ok
  | Error
  | XmlParseError
  | XslCompileError
  | XslTransformError
  | OutOfMemoryError
deriving DecidableEq

/-- InputType enumeration; the source gives the enumerators explicit values
File = 1, Buffer = 2, Stream = 3. -/
inductive InputType where
  | File
  | Buffer
  | Stream
deriving DecidableEq

/-- Numeric value of each `InputType` enumerator, as written in the source
(`File = 1, Buffer = 2, Stream = 3`). -/
def InputType.val : InputType → Nat
  | .File => 1
  | .Buffer => 2
  | .Stream => 3

/-- DataFormat enumeration, constructors in declaration order
(Binary, Object, Text, Opaque). -/
inductive DataFormat where
  | Binary
  | Object
  | Text
  | Opaque
deriving DecidableEq

/-- Numeric value of each `DataFormat` enumerator: the C enum has no explicit
initializers, so enumerators take successive values starting at 0 in
declaration order. -/
def DataFormat.val : DataFormat → Nat
  | .Binary => 0
  | .Object => 1
  | .Text => 2
  | .Opaque => 3

/-- A `char*` buffer region: `cap` bytes were allocated for it and it holds
the C string `contents` (the characters before the NUL terminator). -/
structure CBuffer where
  cap : Nat
  contents : String
deriving DecidableEq

/-- DriverIOVec: `dirty` is the one-bit field (`0`/`1` rendered as `Bool`),
`type` the `DataFormat` tag, `size` the declared Int32 size (claims stay far
inside the Int32 range, so no wrap-around is applied), and `payload` the
`buffer` member of the payload union (`none` = NULL `char*`). -/
structure DriverIOVec where
  dirty : Bool
  type : DataFormat
  size : Int
  payload : Option CBuffer
deriving DecidableEq

/-- InputDocument: an `InputType` tag plus a pointer to a `DriverIOVec`. -/
structure InputDocument where
  type : InputType
  iov : Option DriverIOVec
deriving DecidableEq

/-- DriverContext: opaque port pointer and the caller pid. -/
structure DriverContext where
  port : Option Nat
  caller_pid : Nat
deriving DecidableEq

/-- ParameterListNode: a singly linked, NULL-terminated chain of key/value
pairs (`next` is the `void*` tail pointer). -/
inductive ParameterListNode where
  | mk (key : String) (value : String) (next : Option ParameterListNode)

/-- XslTask: the input document, the stylesheet document, and the head of
the parameter list. -/
structure XslTask where
  input_doc : Option InputDocument
  xslt_doc : Option InputDocument
  parameters : Option ParameterListNode

/-- Command envelope.  `alloc` is the host-supplied allocator carried by the
envelope (`alloc_f`): it yields a fresh region of the requested size whose
initial contents are whatever the allocator put there (malloc does not
initialize), or `none` when allocation fails.  `release` is the
host-supplied `release_f`; deallocation has no observable action in this
heapless embedding. -/
structure Command where
  command_string : String
  command_data : Option XslTask
  result : Option DriverIOVec
  context : Option DriverContext
  alloc : Nat → Option CBuffer
  release : Option CBuffer → Unit

/-- Outcome of evaluating one of the result-buffer macros: the macro's value
together with the state after its side effects, or undefined behavior when
the macro dereferences a null pointer. -/
inductive Outcome (σ : Type) (α : Type) where
  | ok (val : α) (st : σ)
  | ub

/-- State component of an `Outcome` over envelopes; `ub` collapses to `none`
(only ever applied to `ok` outcomes in the theorems below, where the
distinction is re-established separately). -/
def stepState (o : Outcome (Option Command) α) : Option Command :=
  match o with
  | .ok _ s => s
  | .ub => none

/-- get_task macro: NULL on a NULL command; otherwise the `xsl_task` member
of `command_data` when `strcmp("transform", cmd->command_string) == 0`, and
NULL for every other command string. -/
def get_task (cmd : Option Command) : Option XslTask :=
  match cmd with
  | none => none
  | some c => if c.command_string = "transform" then c.command_data else none

/-- get_buffer macro: NULL on a NULL iovec; otherwise the `buffer` payload
member when the type tag is `Text`, and NULL for any other tag. -/
def get_buffer (iov : Option DriverIOVec) : Option CBuffer :=
  match iov with
  | none => none
  | some v => if v.type = DataFormat.Text then v.payload else none

/-- get_doc_buffer macro: NULL on a NULL document, else `get_buffer` of its
iovec. -/
def get_doc_buffer (idoc : Option InputDocument) : Option CBuffer :=
  match idoc with
  | none => none
  | some d => get_buffer d.iov

/-- get_doc_size macro: `-1` when the document or its iovec is NULL,
otherwise the iovec's `size` field (the format tag is not consulted). -/
def get_doc_size (idoc : Option InputDocument) : Int :=
  match idoc with
  | none => -1
  | some d =>
    match d.iov with
    | none => -1
    | some v => v.size

/-- assign_result_buffer macro: NULL command evaluates to NULL with no
effect.  Otherwise the macro writes through `cmd->result` without a NULL
check, so an absent result slot is a null dereference (`ub`).  With a result
slot present it sets `type := Text`, `size := buffersize`, stores the
pointer returned by `cmd->alloc(sizeof(char) * buffersize)` as the payload
buffer, and evaluates to that pointer.  Note that the macro never touches
`dirty`. -/
def assign_result_buffer (buffersize : Nat) (cmd : Option Command) :
    Outcome (Option Command) (Option CBuffer) :=
  match cmd with
  | none => Outcome.ok none none
  | some c =>
    match c.result with
    | none => Outcome.ub
    | some r =>
      let buf := c.alloc buffersize
      Outcome.ok buf
        (some { c with
          result := some { r with
            type := DataFormat.Text
            size := (buffersize : Int)
            payload := buf } })

/-- write_result_buffer macro: NULL when the command or its result slot is
NULL (no effect).  Otherwise, when `dirty != 0` it evaluates
`strcat(cmd->result->payload.buffer, buff)`, and when `dirty == 0` it sets
`dirty = 1` and evaluates `strcpy(cmd->result->payload.buffer, buff)`; both
`strcat` and `strcpy` dereference the payload buffer, so a NULL buffer is
`ub` in either branch, and both return the destination buffer, which is the
macro's value.  Neither branch checks the buffer's capacity. -/
def write_result_buffer (buff : String) (cmd : Option Command) :
    Outcome (Option Command) (Option CBuffer) :=
  match cmd with
  | none => Outcome.ok none none
  | some c =>
    match c.result with
    | none => Outcome.ok none (some c)
    | some r =>
      match r.payload with
      | none => Outcome.ub
      | some b =>
        if r.dirty then
          let b2 := { b with contents := b.contents ++ buff }
          Outcome.ok (some b2)
            (some { c with result := some { r with payload := some b2 } })
        else
          let b2 := { b with contents := buff }
          Outcome.ok (some b2)
            (some { c with
              result := some { r with dirty := true, payload := some b2 } })

/-- clear_result_buffer macro: NULL when the command or its result slot is
NULL (no effect).  Otherwise it sets `dirty = 0`, releases the payload
buffer, sets the payload buffer pointer to NULL, and evaluates to NULL (the
value of that final assignment).  The `type` and `size` fields of the result
iovec are untouched and the iovec itself is not deallocated.  Modelled from
the spec: the `FREE` macro the source applies to the payload buffer is not
defined under src/; per the spec it deallocates the buffer, which this
heapless embedding renders as dropping the buffer from the state. -/
def clear_result_buffer (cmd : Option Command) :
    Outcome (Option Command) (Option CBuffer) :=
  match cmd with
  | none => Outcome.ok none none
  | some c =>
    match c.result with
    | none => Outcome.ok none (some c)
    | some r =>
      Outcome.ok none
        (some { c with result := some { r with dirty := false, payload := none } })

/-- get_task rendered in the same state-transformer signature as the
mutating macros: the macro expression contains no assignment, so the state
it leaves behind is its input. -/
def get_task_st (cmd : Option Command) : Outcome (Option Command) (Option XslTask) :=
  match cmd with
  | none => Outcome.ok none none
  | some c =>
    if c.command_string = "transform"
    then Outcome.ok c.command_data (some c)
    else Outcome.ok none (some c)

/-- get_doc_buffer rendered as a state transformer on documents: no
assignment occurs in the macro, so the state is returned unchanged. -/
def get_doc_buffer_st (idoc : Option InputDocument) :
    Outcome (Option InputDocument) (Option CBuffer) :=
  match idoc with
  | none => Outcome.ok none none
  | some d => Outcome.ok (get_buffer d.iov) (some d)

/-- get_doc_size rendered as a state transformer on documents: no
assignment occurs in the macro, so the state is returned unchanged. -/
def get_doc_size_st (idoc : Option InputDocument) :
    Outcome (Option InputDocument) Int :=
  match idoc with
  | none => Outcome.ok (-1) none
  | some d =>
    match d.iov with
    | none => Outcome.ok (-1) (some d)
    | some v => Outcome.ok v.size (some d)

/-- The result iovec reachable from an envelope. -/
def resultIov (e : Option Command) : Option DriverIOVec :=
  match e with
  | none => none
  | some c => c.result

/-- The dirty bit of the result iovec, when reachable. -/
def resultDirty (e : Option Command) : Option Bool :=
  match resultIov e with
  | none => none
  | some r => some r.dirty

/-- The format tag of the result iovec, when reachable. -/
def resultFormat (e : Option Command) : Option DataFormat :=
  match resultIov e with
  | none => none
  | some r => some r.type

/-- The size field of the result iovec, when reachable. -/
def resultSize (e : Option Command) : Option Int :=
  match resultIov e with
  | none => none
  | some r => some r.size

/-- The C-string contents of the result payload buffer, when reachable. -/
def resultContents (e : Option Command) : Option String :=
  match resultIov e with
  | none => none
  | some r =>
    match r.payload with
    | none => none
    | some b => some b.contents

/-- The allocated capacity of the result payload buffer, when reachable. -/
def resultCap (e : Option Command) : Option Nat :=
  match resultIov e with
  | none => none
  | some r =>
    match r.payload with
    | none => none
    | some b => some b.cap

/-- True when the result payload buffer stores more bytes than were
allocated for it: the stored C string plus its NUL terminator exceed
`cap`. -/
def bufOverrun (e : Option Command) : Bool :=
  match resultIov e with
  | none => false
  | some r =>
    match r.payload with
    | none => false
    | some b => decide (b.cap < b.contents.length + 1)

/-- An envelope whose command string is "ping": no task, no result. -/
def pingCmd : Command where
  command_string := "ping"
  command_data := none
  result := none
  context := none
  alloc := fun n => some { cap := n, contents := "" }
  release := fun _ => ()

/-- A concrete transformation task. -/
def taskEx : XslTask where
  input_doc := none
  xslt_doc := none
  parameters := none

/-- An envelope carrying `taskEx` under the command string "transform". -/
def transformCmd : Command :=
  { pingCmd with command_string := "transform", command_data := some taskEx }

/-- A Text-format iovec holding the 2-byte string "hi" in a 3-byte buffer. -/
def textIov : DriverIOVec where
  dirty := false
  type := DataFormat.Text
  size := 3
  payload := some { cap := 3, contents := "hi" }

/-- A Binary-format iovec with declared size 7. -/
def binIov : DriverIOVec where
  dirty := false
  type := DataFormat.Binary
  size := 7
  payload := some { cap := 7, contents := "raw" }

/-- A Buffer-kind document whose iovec is Text-format. -/
def textDoc : InputDocument where
  type := InputType.Buffer
  iov := some textIov

/-- A Buffer-kind document whose iovec is Binary-format. -/
def binDoc : InputDocument where
  type := InputType.Buffer
  iov := some binIov

/-- A document with a NULL iovec pointer. -/
def noIovDoc : InputDocument where
  type := InputType.File
  iov := none

/-- C4: `get_task` yields the `xsl_task` member of `command_data` exactly
when the envelope is non-null and its command string is exactly
"transform"; on a NULL envelope or any other command string it yields
NULL. -/
theorem get_task_dispatch_rule :
    get_task none = none ∧
    (∀ c : Command, c.command_string = "transform" →
      get_task (some c) = c.command_data) ∧
    (∀ c : Command, c.command_string ≠ "transform" →
      get_task (some c) = none) := by
  refine ⟨rfl, ?_, ?_⟩ <;> intro c h <;> simp [get_task, h]

/-- C4 witness: the dispatch rule evaluated on a "transform" envelope and on
a "ping" envelope. -/
theorem get_task_dispatch_rule_witness :
    get_task (some transformCmd) = some taskEx ∧
    get_task (some pingCmd) = none :=
  ⟨(get_task_dispatch_rule.2.1 transformCmd rfl).trans rfl,
   get_task_dispatch_rule.2.2 pingCmd (by decide)⟩

/-- C7: `get_doc_buffer` yields the payload buffer member exactly when the
document is non-null, its iovec is non-null, and the iovec's format tag is
`Text`; in every other case (NULL document, NULL iovec, or a non-Text
format) it yields NULL. -/
theorem get_doc_buffer_rule :
    get_doc_buffer none = none ∧
    (∀ d : InputDocument, d.iov = none → get_doc_buffer (some d) = none) ∧
    (∀ (d : InputDocument) (v : DriverIOVec), d.iov = some v →
      v.type = DataFormat.Text → get_doc_buffer (some d) = v.payload) ∧
    (∀ (d : InputDocument) (v : DriverIOVec), d.iov = some v →
      v.type ≠ DataFormat.Text → get_doc_buffer (some d) = none) := by
  refine ⟨rfl, ?_, ?_, ?_⟩
  · intro d h; simp [get_doc_buffer, get_buffer, h]
  · intro d v hv ht; simp [get_doc_buffer, get_buffer, hv, ht]
  · intro d v hv ht; simp [get_doc_buffer, get_buffer, hv, ht]

/-- C7 witness: the rule evaluated on a Text document, a Binary document, and
a document with a NULL iovec. -/
theorem get_doc_buffer_rule_witness :
    get_doc_buffer (some textDoc) = some { cap := 3, contents := "hi" } ∧
    get_doc_buffer (some binDoc) = none ∧
    get_doc_buffer (some noIovDoc) = none :=
  ⟨(get_doc_buffer_rule.2.2.1 textDoc textIov rfl rfl).trans rfl,
   get_doc_buffer_rule.2.2.2 binDoc binIov rfl (by decide),
   get_doc_buffer_rule.2.1 noIovDoc rfl⟩

/-- C9: `get_doc_size` yields the integer sentinel `-1` when the document or
its iovec is NULL, and otherwise yields the iovec's declared `size` field
with no hypothesis on the iovec's format tag. -/
theorem get_doc_size_sentinel :
    get_doc_size none = -1 ∧
    (∀ d : InputDocument, d.iov = none → get_doc_size (some d) = -1) ∧
    (∀ (d : InputDocument) (v : DriverIOVec), d.iov = some v →
      get_doc_size (some d) = v.size) := by
  refine ⟨rfl, ?_, ?_⟩
  · intro d h
    simp [get_doc_size, h]
  · intro d v hv
    simp [get_doc_size, hv]

/-- C9 witness: the sentinel on a NULL-iovec document and the size of a
non-Text (Binary) document. -/
theorem get_doc_size_sentinel_witness :
    get_doc_size (some noIovDoc) = -1 ∧
    get_doc_size (some binDoc) = 7 :=
  ⟨get_doc_size_sentinel.2.1 noIovDoc rfl,
   (get_doc_size_sentinel.2.2 binDoc binIov rfl).trans rfl⟩

/-- C8: the numeric encodings of the enumerations: `InputType` carries the
explicit values File = 1, Buffer = 2, Stream = 3, and `DataFormat`'s
declaration order gives Binary = 0, Object = 1, Text = 2, Opaque = 3. -/
theorem enum_encodings :
    InputType.val InputType.File = 1 ∧
    InputType.val InputType.Buffer = 2 ∧
    InputType.val InputType.Stream = 3 ∧
    DataFormat.val DataFormat.Binary = 0 ∧
    DataFormat.val DataFormat.Object = 1 ∧
    DataFormat.val DataFormat.Text = 2 ∧
    DataFormat.val DataFormat.Opaque = 3 := by
  decide

/-- C10: the read/dispatch accessors, rendered in the same state-transformer
signature as the mutating macros, return their input state unchanged (and
never hit undefined behavior): they agree with the pure readings and have no
frame effect on the envelope or the document. -/
theorem accessors_pure :
    (∀ e : Option Command, get_task_st e = Outcome.ok (get_task e) e) ∧
    (∀ d : Option InputDocument,
      get_doc_buffer_st d = Outcome.ok (get_doc_buffer d) d) ∧
    (∀ d : Option InputDocument,
      get_doc_size_st d = Outcome.ok (get_doc_size d) d) := by
  refine ⟨?_, ?_, ?_⟩
  · intro e
    cases e with
    | none => rfl
    | some c =>
      by_cases h : c.command_string = "transform" <;>
        simp [get_task_st, get_task, h]
  · intro d
    cases d with
    | none => rfl
    | some dd => rfl
  · intro d
    cases d with
    | none => rfl
    | some dd => cases h : dd.iov <;> simp [get_doc_size_st, get_doc_size, h]

/-- A freshly assigned 4-byte result buffer: empty contents, dirty clear. -/
def bufFresh : CBuffer where
  cap := 4
  contents := ""

/-- Result iovec holding `bufFresh`, dirty clear. -/
def iovFresh : DriverIOVec where
  dirty := false
  type := DataFormat.Text
  size := 4
  payload := some bufFresh

/-- Envelope with the fresh result buffer installed. -/
def cmdFresh : Command :=
  { transformCmd with result := some iovFresh }

/-- Result iovec whose dirty bit is already set (left over from earlier
writes), with no payload buffer. -/
def iovDirty : DriverIOVec where
  dirty := true
  type := DataFormat.Binary
  size := 0
  payload := none

/-- Envelope whose result slot is present but already dirty. -/
def cmdDirty : Command :=
  { transformCmd with result := some iovDirty }

/-- A pristine result iovec: dirty clear, nothing assigned yet. -/
def iovZero : DriverIOVec where
  dirty := false
  type := DataFormat.Binary
  size := 0
  payload := none

/-- Envelope with a pristine result slot, ready for Assign. -/
def cmdZero : Command :=
  { transformCmd with result := some iovZero }

/-- Result iovec after writes: dirty set, buffer holds "ab". -/
def iovWritten : DriverIOVec where
  dirty := true
  type := DataFormat.Text
  size := 4
  payload := some { cap := 4, contents := "ab" }

/-- Envelope whose result buffer has already been written to. -/
def cmdWritten : Command :=
  { transformCmd with result := some iovWritten }

/-- Envelope whose result slot is the NULL pointer. -/
def cmdNoResult : Command :=
  { transformCmd with result := none }

/-- C1: on an envelope whose result buffer is present, a write with the
dirty bit clear copies the bytes in from the start of the buffer and sets
dirty; a write with the dirty bit set appends to the existing contents; and
composing a first write of `s1` with a second write of `s2` leaves the
buffer holding exactly `s1 ++ s2`. -/
theorem write_first_overwrites_then_appends
    (s1 s2 : String) (c : Command) (r : DriverIOVec) (b : CBuffer)
    (hr : c.result = some r) (hb : r.payload = some b) :
    (r.dirty = false →
      write_result_buffer s1 (some c) =
        Outcome.ok (some { b with contents := s1 })
          (some { c with result := some { r with
            dirty := true
            payload := some { b with contents := s1 } } })) ∧
    (r.dirty = true →
      write_result_buffer s1 (some c) =
        Outcome.ok (some { b with contents := b.contents ++ s1 })
          (some { c with result := some { r with
            payload := some { b with contents := b.contents ++ s1 } } })) ∧
    (r.dirty = false →
      resultContents (stepState (write_result_buffer s2
        (stepState (write_result_buffer s1 (some c))))) = some (s1 ++ s2) ∧
      resultDirty (stepState (write_result_buffer s1 (some c))) = some true) := by
  refine ⟨?_, ?_, ?_⟩ <;> intro hd <;>
    simp [write_result_buffer, hr, hb, hd, stepState, resultContents,
      resultDirty, resultIov]

/-- C1 witness: on the fresh envelope, writing "ab" then "cd" yields buffer
contents "abcd", and dirty is set after the first write. -/
theorem write_first_overwrites_then_appends_witness :
    cmdFresh.result = some iovFresh ∧
    iovFresh.payload = some bufFresh ∧
    iovFresh.dirty = false ∧
    resultContents (stepState (write_result_buffer "cd"
      (stepState (write_result_buffer "ab" (some cmdFresh))))) = some "abcd" ∧
    resultDirty (stepState (write_result_buffer "ab" (some cmdFresh))) = some true := by
  have h := write_first_overwrites_then_appends "ab" "cd" cmdFresh iovFresh
    bufFresh rfl rfl
  exact ⟨rfl, rfl, rfl, ((h.2.2 rfl).1).trans (by decide), (h.2.2 rfl).2⟩

/-- C2 counterexample: `assign_result_buffer` never touches the dirty bit,
so on an envelope whose result is already dirty, Assign(64, e) leaves
`dirty = true` rather than establishing `dirty = false` as the claim
states. -/
theorem assign_leaves_dirty_counterexample :
    resultDirty (some cmdDirty) = some true ∧
    resultDirty (stepState (assign_result_buffer 64 (some cmdDirty))) = some true ∧
    resultDirty (stepState (assign_result_buffer 64 (some cmdDirty))) ≠ some false := by
  refine ⟨by decide, by decide, by decide⟩

/-- C2 amended: with the result slot present and the allocator succeeding,
Assign installs the freshly allocated buffer as the payload, sets the format
tag to Text and the size to the requested byte count, returns the new
buffer, and leaves the dirty bit unchanged from its prior value. -/
theorem assign_sets_format_size_payload
    (bs : Nat) (c : Command) (r : DriverIOVec) (b : CBuffer)
    (hr : c.result = some r) (ha : c.alloc bs = some b) (hcap : b.cap = bs) :
    assign_result_buffer bs (some c) =
      Outcome.ok (some b)
        (some { c with result := some { r with
          type := DataFormat.Text
          size := (bs : Int)
          payload := some b } }) ∧
    resultFormat (stepState (assign_result_buffer bs (some c))) = some DataFormat.Text ∧
    resultSize (stepState (assign_result_buffer bs (some c))) = some (bs : Int) ∧
    resultCap (stepState (assign_result_buffer bs (some c))) = some bs ∧
    resultDirty (stepState (assign_result_buffer bs (some c))) = some r.dirty := by
  refine ⟨?_, ?_, ?_, ?_, ?_⟩ <;>
    simp [assign_result_buffer, hr, ha, hcap, stepState, resultFormat,
      resultSize, resultCap, resultDirty, resultIov]

/-- C2 amended witness: Assign(64) on the already-dirty envelope sets format
Text, size 64, capacity 64, and keeps the stale dirty bit. -/
theorem assign_sets_format_size_payload_witness :
    resultFormat (stepState (assign_result_buffer 64 (some cmdDirty))) = some DataFormat.Text ∧
    resultSize (stepState (assign_result_buffer 64 (some cmdDirty))) = some (64 : Int) ∧
    resultCap (stepState (assign_result_buffer 64 (some cmdDirty))) = some 64 ∧
    resultDirty (stepState (assign_result_buffer 64 (some cmdDirty))) = some iovDirty.dirty :=
  (assign_sets_format_size_payload 64 cmdDirty iovDirty
    { cap := 64, contents := "" } rfl rfl rfl).2

/-- C3: evaluation of the code at the failing input.  Assign(4) allocates a
4-byte buffer; Write("ab") then Write("cd") stores the string "abcd", which
with its NUL terminator needs 5 bytes; the capacity recorded at allocation
remains 4 — the buffer is overrun, not grown and not truncated. -/
theorem write_overruns_assigned_capacity :
    resultContents (stepState (write_result_buffer "cd"
      (stepState (write_result_buffer "ab"
        (stepState (assign_result_buffer 4 (some cmdZero))))))) = some "abcd" ∧
    resultCap (stepState (write_result_buffer "cd"
      (stepState (write_result_buffer "ab"
        (stepState (assign_result_buffer 4 (some cmdZero))))))) = some 4 ∧
    bufOverrun (stepState (write_result_buffer "cd"
      (stepState (write_result_buffer "ab"
        (stepState (assign_result_buffer 4 (some cmdZero))))))) = true := by
  refine ⟨by decide, by decide, by decide⟩

/-- C5 counterexample: after Clear, the payload buffer pointer is NULL, so a
subsequent Write does not behave as a first write (which would store its
argument and set dirty): it takes the dirty-clear branch but `strcpy` into
the NULL buffer — undefined behavior, not a first write. -/
theorem clear_then_write_counterexample :
    resultDirty (stepState (clear_result_buffer (some cmdWritten))) = some false ∧
    resultContents (stepState (clear_result_buffer (some cmdWritten))) = none ∧
    write_result_buffer "x" (stepState (clear_result_buffer (some cmdWritten))) =
      Outcome.ub := by
  refine ⟨by decide, by decide, rfl⟩

/-- C5 amended: with the result slot present, Clear evaluates to NULL,
clears the dirty bit, releases the payload buffer and nulls its pointer,
while keeping the result iovec header itself with its format tag and size
intact; a Write issued after Clear takes the first-write branch but
dereferences the now-NULL payload buffer, so a fresh Assign is required
before writing again. -/
theorem clear_resets_header_preserved
    (c : Command) (r : DriverIOVec) (hr : c.result = some r) :
    clear_result_buffer (some c) =
      Outcome.ok none
        (some { c with result := some { r with dirty := false, payload := none } }) ∧
    resultDirty (stepState (clear_result_buffer (some c))) = some false ∧
    resultContents (stepState (clear_result_buffer (some c))) = none ∧
    resultFormat (stepState (clear_result_buffer (some c))) = some r.type ∧
    resultSize (stepState (clear_result_buffer (some c))) = some r.size ∧
    (∀ s : String, write_result_buffer s (stepState (clear_result_buffer (some c))) =
      Outcome.ub) := by
  refine ⟨?_, ?_, ?_, ?_, ?_, ?_⟩ <;>
    simp [clear_result_buffer, write_result_buffer, hr, stepState,
      resultDirty, resultContents, resultFormat, resultSize, resultIov]

/-- C5 amended witness: clearing the written-to envelope resets dirty,
empties the payload, preserves the Text tag and size 4, and makes the next
write undefined behavior. -/
theorem clear_resets_header_preserved_witness :
    resultDirty (stepState (clear_result_buffer (some cmdWritten))) = some false ∧
    resultContents (stepState (clear_result_buffer (some cmdWritten))) = none ∧
    resultFormat (stepState (clear_result_buffer (some cmdWritten))) = some DataFormat.Text ∧
    resultSize (stepState (clear_result_buffer (some cmdWritten))) = some 4 ∧
    write_result_buffer "x" (stepState (clear_result_buffer (some cmdWritten))) =
      Outcome.ub := by
  have h := clear_resets_header_preserved cmdWritten iovWritten rfl
  exact ⟨h.2.1, h.2.2.1, h.2.2.2.1, h.2.2.2.2.1, h.2.2.2.2.2 "x"⟩

/-- C6 counterexample: on a non-null envelope whose result slot is the NULL
pointer, `assign_result_buffer` dereferences the NULL result pointer —
undefined behavior, not a no-op with a null result as the claim states. -/
theorem assign_null_result_ub_counterexample :
    cmdNoResult.result = none ∧
    assign_result_buffer 64 (some cmdNoResult) = Outcome.ub :=
  ⟨rfl, rfl⟩

/-- C6 amended: Write, Clear and the document-buffer read are total — a NULL
envelope/document yields a NULL value with the state unchanged, and an
absent result slot makes Write and Clear no-ops — and Assign is a no-op on a
NULL envelope; but Assign on a non-null envelope whose result slot is absent
dereferences the NULL result pointer (undefined behavior) instead of acting
as a no-op. -/
theorem ops_total_on_null_amended :
    (∀ s : String, write_result_buffer s none = Outcome.ok none none) ∧
    clear_result_buffer none = Outcome.ok none none ∧
    (∀ bs : Nat, assign_result_buffer bs none = Outcome.ok none none) ∧
    get_doc_buffer none = none ∧
    (∀ (s : String) (c : Command), c.result = none →
      write_result_buffer s (some c) = Outcome.ok none (some c)) ∧
    (∀ c : Command, c.result = none →
      clear_result_buffer (some c) = Outcome.ok none (some c)) ∧
    (∀ (bs : Nat) (c : Command), c.result = none →
      assign_result_buffer bs (some c) = Outcome.ub) := by
  refine ⟨fun s => rfl, rfl, fun bs => rfl, rfl, ?_, ?_, ?_⟩
  · intro s c h
    simp [write_result_buffer, h]
  · intro c h
    simp [clear_result_buffer, h]
  · intro bs c h
    simp [assign_result_buffer, h]

/-- C6 amended witness: the no-op behaviors and the Assign null-result
dereference, at the concrete envelope with an absent result slot. -/
theorem ops_total_on_null_amended_witness :
    write_result_buffer "x" (some cmdNoResult) = Outcome.ok none (some cmdNoResult) ∧
    clear_result_buffer (some cmdNoResult) = Outcome.ok none (some cmdNoResult) ∧
    assign_result_buffer 64 (some cmdNoResult) = Outcome.ub := by
  have h := ops_total_on_null_amended
  exact ⟨h.2.2.2.2.1 "x" cmdNoResult rfl, h.2.2.2.2.2.1 cmdNoResult rfl,
    h.2.2.2.2.2.2 64 cmdNoResult rfl⟩
